import Mathlib

/-
Shallow embedding of the data-access layer of the Movie-WebApplication
repository (Flask + SQLAlchemy with a flat-file JSON variant).

Source files embedded:
  * datamanager/json_data_manager.py  (class JSONDataManager)  -> json_* defs
  * datamanager/sql_data_manager.py   (class SQLiteDataManager) -> sql_* defs
  * datamanager/data_models.py        (Review classmethods)     -> review_* defs
  * api.py                            (fetch_movie_details)     -> fetch_movie_details

Machine integers are modelled as Nat (ids never overflow in the source,
which uses Python unbounded ints).  Python functions that may raise
ValueError are embedded with an Except result; functions whose bodies
contain no raise are embedded as total functions.
-/

/-- One movie object of the flat-file document
(json_data_manager.py; field names as in the persisted JSON format). -/
structure JMovie where
  imdb_ID : String
  title : String
  year : String
  rating : String
  poster_url : String
deriving DecidableEq

/-- One user object of the flat-file document: integer ID, name,
and the nested list of movies. -/
structure JUser where
  ID : Nat
  name : String
  movies : List JMovie
deriving DecidableEq

/-- State of a JSONDataManager instance: the in-memory list self.data
together with the on-disk document (none models a missing file,
which load_data turns into an empty list). -/
structure JState where
  mem : List JUser
  disk : Option (List JUser)
deriving DecidableEq

/-- JSONDataManager.load_data (json_data_manager.py lines 18-26):
re-reads self.data from the file; FileNotFoundError yields []. -/
def json_load_data (s : JState) : JState :=
  { mem := s.disk.getD [], disk := s.disk }

/-- JSONDataManager.save_data (lines 37-42): serializes the whole
in-memory document to disk. -/
def json_save_data (s : JState) : JState :=
  { mem := s.mem, disk := some s.mem }

/-- Fresh-id computation of JSONDataManager.add_user (line 99):
max of existing IDs plus one, or 1 when the data is empty. -/
def json_next_id (data : List JUser) : Nat :=
  match data with
  | [] => 1
  | _ => (data.map (fun u => u.ID)).foldl max 0 + 1

/-- JSONDataManager.get_user_movies (lines 60-75): first user whose ID
matches yields its movies list; otherwise the empty list. -/
def json_get_user_movies (data : List JUser) (uid : Nat) : List JMovie :=
  match data.find? (fun u => u.ID == uid) with
  | some u => u.movies
  | none => []

/-- JSONDataManager.get_user_name (lines 77-90), embedded exactly as
written: the final return None sits INSIDE the for loop, so only the
first record of self.data is ever examined; an empty list falls through
to the implicit None of Python. -/
def json_get_user_name (data : List JUser) (uid : Nat) : Option String :=
  match data with
  | [] => none
  | u :: _ => if u.ID == uid then some u.name else none

/-- JSONDataManager.add_user (lines 92-102): assigns ID max+1 (or 1),
appends the record to self.data and saves; it does not reload first. -/
def json_add_user (s : JState) (name : String) (movies : List JMovie) : JState :=
  json_save_data
    { s with mem := s.mem ++ [⟨json_next_id s.mem, name, movies⟩] }

/-- JSONDataManager.delete_user (lines 104-112): filters the user out of
self.data and saves; it does not reload first and does not raise. -/
def json_delete_user (s : JState) (uid : Nat) : JState :=
  json_save_data { s with mem := s.mem.filter (fun u => u.ID != uid) }

/-- Helper mirroring the in-place mutation Python performs of the first list element
matching a user ID (a for loop with return, or next(...) over users). -/
def updateFirstJUser (uid : Nat) (f : JUser → JUser) : List JUser → List JUser
  | [] => []
  | u :: rest =>
      if u.ID == uid then f u :: rest else u :: updateFirstJUser uid f rest

/-- Helper mirroring the in-place mutation Python performs of the first movie dict
matching an imdb_ID (next(...) over the movie list of a user). -/
def updateFirstJMovie (mid : String) (f : JMovie → JMovie) :
    List JMovie → List JMovie
  | [] => []
  | m :: rest =>
      if m.imdb_ID == mid then f m :: rest else m :: updateFirstJMovie mid f rest

/-- Typed stand-ins for the ValueError raise sites of the source. -/
inductive VErr
  | userNotFound (user_id : Nat)
  | movieNotFound (movie_id : Nat)
  | movieNotFoundForUser (movie_id : String) (user_id : Nat)
deriving DecidableEq

/-- JSONDataManager.add_movie_to_user (lines 114-131): calls load_data
first, appends the movie to the first matching user and saves, or raises
ValueError when the user is absent. -/
def json_add_movie_to_user (s : JState) (uid : Nat) (mv : JMovie) :
    Except VErr JState :=
  let s1 := json_load_data s
  match s1.mem.find? (fun u => u.ID == uid) with
  | none => Except.error (VErr.userNotFound uid)
  | some _ =>
      let addIt := fun (v : JUser) => { v with movies := v.movies ++ [mv] }
      Except.ok (json_save_data
        { s1 with mem := updateFirstJUser uid addIt s1.mem })

/-- JSONDataManager.update_movie (lines 133-156): finds the user, then the
movie by imdb_ID, mutates title and rating and saves; raises ValueError
when the user or the movie is absent.  It does not reload first. -/
def json_update_movie (s : JState) (uid : Nat) (mid t r : String) :
    Except VErr JState :=
  match s.mem.find? (fun u => u.ID == uid) with
  | none => Except.error (VErr.userNotFound uid)
  | some u =>
      match u.movies.find? (fun m => m.imdb_ID == mid) with
      | none => Except.error (VErr.movieNotFoundForUser mid uid)
      | some _ =>
          let setFields := fun (m : JMovie) => { m with title := t, rating := r }
          let inUser := fun (v : JUser) =>
            { v with movies := updateFirstJMovie mid setFields v.movies }
          Except.ok (json_save_data
            { s with mem := updateFirstJUser uid inUser s.mem })

/-- JSONDataManager.delete_movie (lines 158-171): finds the user, filters
the movie out by imdb_ID and saves; raises ValueError when the user is
absent.  It does not reload first. -/
def json_delete_movie (s : JState) (uid : Nat) (mid : String) :
    Except VErr JState :=
  match s.mem.find? (fun u => u.ID == uid) with
  | none => Except.error (VErr.userNotFound uid)
  | some _ =>
      let dropIt := fun (v : JUser) =>
        { v with movies := v.movies.filter (fun m => m.imdb_ID != mid) }
      Except.ok (json_save_data
        { s with mem := updateFirstJUser uid dropIt s.mem })

/-- Row of the relational user table (data_models.py lines 27-30). -/
structure SQLUser where
  user_id : Nat
  username : String
deriving DecidableEq

/-- Row of the relational movie table (data_models.py lines 86-93). -/
structure SQLMovie where
  movie_id : Nat
  title : String
  year : String
  rating : String
  user_id : Nat
  imdbID : String
  poster : String
deriving DecidableEq

/-- Row of the relational review table (data_models.py lines 199-204). -/
structure SQLReview where
  review_id : Nat
  user_id : Nat
  movie_id : Nat
  review_text : String
  rating : Int
deriving DecidableEq

/-- State of the relational store: the three tables plus the next value
of each autoincrement primary key. -/
structure SQLState where
  users : List SQLUser
  movies : List SQLMovie
  reviews : List SQLReview
  next_user_id : Nat
  next_movie_id : Nat
  next_review_id : Nat
deriving DecidableEq

/-- Movie fields passed to SQLiteDataManager.add_movie_to_user (the dict
built by the add_movie route). -/
structure MovieFields where
  title : String
  year : String
  rating : String
  poster : String
  imdbID : String
deriving DecidableEq

/-- SQLiteDataManager.get_user_movies (sql_data_manager.py lines 28-41):
user.movies when the user row exists, else the empty list.  user.movies
is the relationship of movies whose user_id foreign key matches. -/
def sql_get_user_movies (s : SQLState) (uid : Nat) : List SQLMovie :=
  match s.users.find? (fun u => u.user_id == uid) with
  | some _ => s.movies.filter (fun m => m.user_id == uid)
  | none => []

/-- SQLiteDataManager.get_user_name (lines 43-56). -/
def sql_get_user_name (s : SQLState) (uid : Nat) : Option String :=
  match s.users.find? (fun u => u.user_id == uid) with
  | some u => some u.username
  | none => none

/-- SQLiteDataManager.add_user (lines 58-67): inserts a row; the primary
key is assigned by autoincrement in the engine. -/
def sql_add_user (s : SQLState) (username : String) : SQLState :=
  { s with
    users := s.users ++ [⟨s.next_user_id, username⟩],
    next_user_id := s.next_user_id + 1 }

/-- SQLiteDataManager.delete_user (lines 69-82): when the user row
exists, each movie of the user is deleted (the reviews relationship of
a movie carries cascade all, delete-orphan, so the reviews of that movie go
with it), then the user row; otherwise nothing happens. -/
def sql_delete_user (s : SQLState) (uid : Nat) : SQLState :=
  match s.users.find? (fun u => u.user_id == uid) with
  | some _ =>
      let doomed := s.movies.filter (fun m => m.user_id == uid)
      let keepReview := fun (rv : SQLReview) =>
        !(doomed.any (fun m => m.movie_id == rv.movie_id))
      { s with
        users := s.users.filter (fun u => u.user_id != uid),
        movies := s.movies.filter (fun m => m.user_id != uid),
        reviews := s.reviews.filter keepReview }
  | none => s

/-- SQLiteDataManager.add_movie_to_user (lines 84-103): inserts the movie
when the user row exists; the body contains no raise and no else branch,
so an absent user makes the call return with the store untouched. -/
def sql_add_movie_to_user (s : SQLState) (uid : Nat) (mv : MovieFields) :
    SQLState :=
  match s.users.find? (fun u => u.user_id == uid) with
  | some _ =>
      let row : SQLMovie :=
        ⟨s.next_movie_id, mv.title, mv.year, mv.rating, uid, mv.imdbID,
          mv.poster⟩
      { s with
        movies := s.movies ++ [row],
        next_movie_id := s.next_movie_id + 1 }
  | none => s

/-- Helper mirroring the in-place ORM mutation of of the single movie row
retrieved by primary key. -/
def updateFirstSMovie (mid : Nat) (f : SQLMovie → SQLMovie) :
    List SQLMovie → List SQLMovie
  | [] => []
  | m :: rest =>
      if m.movie_id == mid then f m :: rest
      else m :: updateFirstSMovie mid f rest

/-- SQLiteDataManager.update_movie (lines 105-125): fetches the movie by
primary key; when it exists and its user_id equals the given user_id,
title and rating are overwritten and True is returned, else False. -/
def sql_update_movie (s : SQLState) (uid mid : Nat) (t r : String) :
    Bool × SQLState :=
  match s.movies.find? (fun m => m.movie_id == mid) with
  | some m =>
      if m.user_id == uid then
        let setFields := fun (x : SQLMovie) => { x with title := t, rating := r }
        (true, { s with movies := updateFirstSMovie mid setFields s.movies })
      else (false, s)
  | none => (false, s)

/-- SQLiteDataManager.get_reviews_for_movie (lines 140-153): the
reviews relationship when the movie row exists, else the empty list. -/
def sql_get_reviews_for_movie (s : SQLState) (mid : Nat) : List SQLReview :=
  match s.movies.find? (fun m => m.movie_id == mid) with
  | some _ => s.reviews.filter (fun rv => rv.movie_id == mid)
  | none => []

/-- SQLiteDataManager.add_review (lines 160-183): raises ValueError when
the user row is absent, then when the movie row is absent, otherwise
inserts the review row. -/
def sql_add_review (s : SQLState) (uid mid : Nat) (txt : String)
    (rating : Int) : Except VErr SQLState :=
  match s.users.find? (fun u => u.user_id == uid) with
  | none => Except.error (VErr.userNotFound uid)
  | some _ =>
      match s.movies.find? (fun m => m.movie_id == mid) with
      | none => Except.error (VErr.movieNotFound mid)
      | some _ =>
          let row : SQLReview := ⟨s.next_review_id, uid, mid, txt, rating⟩
          Except.ok { s with
            reviews := s.reviews ++ [row],
            next_review_id := s.next_review_id + 1 }

/-- Helper mirroring the in-place ORM mutation of of the single review row
retrieved by primary key. -/
def updateFirstSReview (rid : Nat) (f : SQLReview → SQLReview) :
    List SQLReview → List SQLReview
  | [] => []
  | rv :: rest =>
      if rv.review_id == rid then f rv :: rest
      else rv :: updateFirstSReview rid f rest

/-- Review.update_review classmethod (data_models.py lines 222-228):
fetches the review by primary key only; when present its text and rating
are overwritten, otherwise nothing happens.  No user or movie check. -/
def review_update_review (s : SQLState) (rid : Nat) (txt : String)
    (rating : Int) : SQLState :=
  match s.reviews.find? (fun rv => rv.review_id == rid) with
  | some _ =>
      let setFields := fun (rv : SQLReview) =>
        { rv with review_text := txt, rating := rating }
      { s with reviews := updateFirstSReview rid setFields s.reviews }
  | none => s

/-- Review.delete_review classmethod (data_models.py lines 215-220):
fetches the review by primary key only; when present it is deleted,
otherwise nothing happens.  No user or movie check. -/
def review_delete_review (s : SQLState) (rid : Nat) : SQLState :=
  match s.reviews.find? (fun rv => rv.review_id == rid) with
  | some _ =>
      { s with reviews := s.reviews.filter (fun rv => rv.review_id != rid) }
  | none => s

/-- A JSON body returned by the OMDB service, as an association list of
top-level string fields; the empty dict is the empty list. -/
structure OmdbJson where
  fields : List (String × String)
deriving DecidableEq

/-- Value of the Response key of the body (response_json.get of Response). -/
def OmdbJson.responseVal (j : OmdbJson) : Option String :=
  j.fields.lookup "Response"

/-- The empty dict literal returned by fetch_movie_details on failure. -/
def emptyJson : OmdbJson := ⟨[]⟩

/-- Outcome of the outbound HTTP GET: a completed response with a status
code and JSON body, or a transport-level exception from requests. -/
inductive HttpResult
  | success (status : Nat) (body : OmdbJson)
  | failure (msg : String)
deriving DecidableEq

/-- Observable outcome of a data_api call: the payload returned normally,
the ValueError raised for a no-match body, or an uncaught requests
exception propagating to the caller. -/
inductive ApiOutcome
  | record (body : OmdbJson)
  | valueError (title : String)
  | requestError (msg : String)
deriving DecidableEq

/-- SQLiteDataManager.data_api (sql_data_manager.py lines 198-214): the
status code is never inspected; a body whose Response field is the string
False raises ValueError, any other body is returned; transport exceptions
are not caught and propagate. -/
def sql_data_api (title : String) (h : HttpResult) : ApiOutcome :=
  match h with
  | HttpResult.failure m => ApiOutcome.requestError m
  | HttpResult.success _ body =>
      if body.responseVal == some "False" then ApiOutcome.valueError title
      else ApiOutcome.record body

/-- JSONDataManager.data_api (json_data_manager.py lines 28-35):
identical logic to data_api of the relational adapter. -/
def json_data_api (title : String) (h : HttpResult) : ApiOutcome :=
  match h with
  | HttpResult.failure m => ApiOutcome.requestError m
  | HttpResult.success _ body =>
      if body.responseVal == some "False" then ApiOutcome.valueError title
      else ApiOutcome.record body

/-- fetch_movie_details (api.py lines 51-66): raise_for_status turns a
4xx or 5xx status into a RequestException that the except clause catches,
returning the empty dict; the body of a 200 response is returned unchanged
(its Response field is never inspected); any other status returns the
empty dict; transport exceptions also return the empty dict. -/
def fetch_movie_details (h : HttpResult) : OmdbJson :=
  match h with
  | HttpResult.failure _ => emptyJson
  | HttpResult.success status body =>
      if 400 ≤ status then emptyJson
      else if status == 200 then body
      else emptyJson

/-
Helper lemmas shared by the claim theorems.
-/

/-- A successful find? splits the list at the first match. -/
theorem find?_decomp {α : Type} {p : α → Bool} {l : List α} {a : α}
    (h : l.find? p = some a) :
    ∃ l1 l2, l = l1 ++ a :: l2 ∧ ∀ x ∈ l1, p x = false := by
  induction l with
  | nil => simp at h
  | cons b t ih =>
    rw [List.find?_cons] at h
    cases hb : p b with
    | true =>
      rw [hb] at h
      simp only [cond] at h
      injection h with h
      exact ⟨[], t, by simp [h], by simp⟩
    | false =>
      rw [hb] at h
      simp only [cond] at h
      obtain ⟨l1, l2, he, hp⟩ := ih h
      refine ⟨b :: l1, l2, by simp [he], ?_⟩
      intro x hx
      rcases List.mem_cons.mp hx with h1 | h2
      · rw [h1]; exact hb
      · exact hp x h2

/-- updateFirstSMovie rewrites exactly the first matching element. -/
theorem updateFirstSMovie_append (mid : Nat) (f : SQLMovie → SQLMovie)
    (l1 : List SQLMovie) (m : SQLMovie) (l2 : List SQLMovie)
    (h1 : ∀ x ∈ l1, (x.movie_id == mid) = false)
    (hm : (m.movie_id == mid) = true) :
    updateFirstSMovie mid f (l1 ++ m :: l2) = l1 ++ f m :: l2 := by
  induction l1 with
  | nil => simp [updateFirstSMovie, hm]
  | cons b t ih =>
    have hb : (b.movie_id == mid) = false := h1 b (List.mem_cons_self b t)
    simp only [List.cons_append, updateFirstSMovie, hb]
    simp only [Bool.false_eq_true, if_false, List.cons.injEq, true_and]
    exact ih (fun x hx => h1 x (List.mem_cons_of_mem b hx))

/-- Claim C10: for every user_id with no corresponding user in the store,
get_user_movies returns the empty sequence (and cannot raise) in both
adapters, so an absent user is indistinguishable through this operation
from an existing user who has no movies. -/
theorem c10_get_user_movies_absent_empty :
    (∀ (s : SQLState) (uid : Nat),
       s.users.find? (fun u => u.user_id == uid) = none →
       sql_get_user_movies s uid = []) ∧
    (∀ (s : SQLState) (uid : Nat) (u : SQLUser),
       s.users.find? (fun u => u.user_id == uid) = some u →
       (∀ m ∈ s.movies, m.user_id ≠ uid) →
       sql_get_user_movies s uid = []) ∧
    (∀ (data : List JUser) (uid : Nat),
       data.find? (fun u => u.ID == uid) = none →
       json_get_user_movies data uid = []) ∧
    (∀ (data : List JUser) (uid : Nat) (u : JUser),
       data.find? (fun u => u.ID == uid) = some u →
       u.movies = [] →
       json_get_user_movies data uid = []) := by
  refine ⟨?_, ?_, ?_, ?_⟩
  · intro s uid h
    simp [sql_get_user_movies, h]
  · intro s uid u h hm
    simp only [sql_get_user_movies, h]
    exact List.filter_eq_nil_iff.mpr
      (fun m hmem => by simp [hm m hmem])
  · intro data uid h
    simp [json_get_user_movies, h]
  · intro data uid u h hm
    simp [json_get_user_movies, h, hm]

/-- Witness for c10_get_user_movies_absent_empty at concrete stores. -/
theorem c10_get_user_movies_absent_empty_witness :
    sql_get_user_movies ⟨[], [], [], 1, 1, 1⟩ 7 = [] ∧
    json_get_user_movies [⟨1, "alice", []⟩] 7 = [] := by
  constructor
  · exact c10_get_user_movies_absent_empty.1 ⟨[], [], [], 1, 1, 1⟩ 7 (by decide)
  · exact c10_get_user_movies_absent_empty.2.2.1 [⟨1, "alice", []⟩] 7 (by decide)

/-- Claim C8: deleting a non-existent user is an idempotent no-op in both
adapters: it cannot raise, the relational store is untouched, and the
flat-file data is unchanged (the write-back stores exactly the unchanged
in-memory document, so an in-sync instance is left identical). -/
theorem c8_delete_user_absent_noop :
    (∀ (s : SQLState) (uid : Nat),
       s.users.find? (fun u => u.user_id == uid) = none →
       sql_delete_user s uid = s) ∧
    (∀ (s : JState) (uid : Nat),
       (∀ u ∈ s.mem, u.ID ≠ uid) →
       (json_delete_user s uid).mem = s.mem ∧
       (json_delete_user s uid).disk = some s.mem ∧
       (s.disk = some s.mem → json_delete_user s uid = s)) := by
  constructor
  · intro s uid h
    simp [sql_delete_user, h]
  · intro s uid h
    have hf : s.mem.filter (fun u => u.ID != uid) = s.mem :=
      List.filter_eq_self.mpr (fun u hu => bne_iff_ne.mpr (h u hu))
    refine ⟨?_, ?_, ?_⟩
    · simp [json_delete_user, json_save_data, hf]
    · simp [json_delete_user, json_save_data, hf]
    · intro hsync
      cases s with
      | mk mem disk =>
        simp only [json_delete_user, json_save_data] at *
        simp [hf, hsync]

/-- Witness for c8_delete_user_absent_noop at concrete stores. -/
theorem c8_delete_user_absent_noop_witness :
    sql_delete_user ⟨[⟨1, "alice"⟩], [], [], 2, 1, 1⟩ 9 =
      ⟨[⟨1, "alice"⟩], [], [], 2, 1, 1⟩ ∧
    json_delete_user ⟨[⟨1, "alice", []⟩], some [⟨1, "alice", []⟩]⟩ 9 =
      ⟨[⟨1, "alice", []⟩], some [⟨1, "alice", []⟩]⟩ := by
  constructor
  · exact c8_delete_user_absent_noop.1 ⟨[⟨1, "alice"⟩], [], [], 2, 1, 1⟩ 9
      (by decide)
  · exact (c8_delete_user_absent_noop.2
      ⟨[⟨1, "alice", []⟩], some [⟨1, "alice", []⟩]⟩ 9 (by decide)).2.2 rfl

/-- Claim C3: for every store state and every existing user_id, the
delete_user of the relational adapter removes the user row and deletes every
movie owned by that user: afterwards no user with that id and no movie
with that owning user_id remains. -/
theorem c3_delete_user_cascades (s : SQLState) (uid : Nat)
    (h : ∃ u ∈ s.users, u.user_id = uid) :
    (∀ u ∈ (sql_delete_user s uid).users, u.user_id ≠ uid) ∧
    (∀ m ∈ (sql_delete_user s uid).movies, m.user_id ≠ uid) := by
  obtain ⟨u0, hu0, hid⟩ := h
  cases hf : s.users.find? (fun u => u.user_id == uid) with
  | none =>
    exact absurd (List.find?_eq_none.mp hf u0 hu0) (by simp [hid])
  | some u1 =>
    constructor
    · intro u hu
      simp only [sql_delete_user, hf] at hu
      have := (List.mem_filter.mp hu).2
      exact bne_iff_ne.mp this
    · intro m hm
      simp only [sql_delete_user, hf] at hm
      have := (List.mem_filter.mp hm).2
      exact bne_iff_ne.mp this

/-- Witness for c3_delete_user_cascades at a concrete store. -/
theorem c3_delete_user_cascades_witness :
    (∀ u ∈ (sql_delete_user
        ⟨[⟨1, "alice"⟩, ⟨2, "bob"⟩],
         [⟨1, "Inception", "2010", "8.8", 1, "tt1375666", "p"⟩,
          ⟨2, "Heat", "1995", "8.3", 2, "tt0113277", "q"⟩],
         [⟨1, 1, 1, "great", 5⟩], 3, 3, 2⟩ 1).users, u.user_id ≠ 1) ∧
    (∀ m ∈ (sql_delete_user
        ⟨[⟨1, "alice"⟩, ⟨2, "bob"⟩],
         [⟨1, "Inception", "2010", "8.8", 1, "tt1375666", "p"⟩,
          ⟨2, "Heat", "1995", "8.3", 2, "tt0113277", "q"⟩],
         [⟨1, 1, 1, "great", 5⟩], 3, 3, 2⟩ 1).movies, m.user_id ≠ 1) := by
  exact c3_delete_user_cascades _ 1 ⟨⟨1, "alice"⟩, by simp, rfl⟩

/-- Claim C1 (amended): in the relational adapter update_movie returns
False and cannot raise when the movie is absent or owned by another
user; the flat-file adapter instead raises ValueError in those cases
(user not found, or movie not found for that user) rather than
returning false. -/
theorem c1_update_movie_missing_or_unowned :
    (∀ (s : SQLState) (uid mid : Nat) (t r : String),
       (∀ m, s.movies.find? (fun x => x.movie_id == mid) = some m →
         m.user_id ≠ uid) →
       sql_update_movie s uid mid t r = (false, s)) ∧
    (∀ (s : JState) (uid : Nat) (mid t r : String),
       (s.mem.find? (fun u => u.ID == uid) = none →
         json_update_movie s uid mid t r =
           Except.error (VErr.userNotFound uid)) ∧
       (∀ u, s.mem.find? (fun v => v.ID == uid) = some u →
         u.movies.find? (fun m => m.imdb_ID == mid) = none →
         json_update_movie s uid mid t r =
           Except.error (VErr.movieNotFoundForUser mid uid))) := by
  constructor
  · intro s uid mid t r h
    cases hf : s.movies.find? (fun x => x.movie_id == mid) with
    | none => simp [sql_update_movie, hf]
    | some m =>
      cases hb : m.user_id == uid with
      | true => exact absurd (beq_iff_eq.mp hb) (h m hf)
      | false => simp [sql_update_movie, hf, hb]
  · intro s uid mid t r
    constructor
    · intro h
      simp [json_update_movie, h]
    · intro u hu hmv
      simp [json_update_movie, hu, hmv]

/-- Witness for c1_update_movie_missing_or_unowned: user 2 tries to
update the movie of user 1 in the relational store, getting False with the
store unchanged; in the flat-file store the same attempt on a user with
no such movie raises. -/
theorem c1_update_movie_missing_or_unowned_witness :
    sql_update_movie
      ⟨[⟨1, "alice"⟩, ⟨2, "bob"⟩],
       [⟨1, "Inception", "2010", "8.8", 1, "tt1375666", "p"⟩],
       [], 3, 2, 1⟩ 2 1 "Inception 2" "9.0" =
      (false,
       ⟨[⟨1, "alice"⟩, ⟨2, "bob"⟩],
        [⟨1, "Inception", "2010", "8.8", 1, "tt1375666", "p"⟩],
        [], 3, 2, 1⟩) ∧
    json_update_movie ⟨[⟨1, "alice", []⟩], some [⟨1, "alice", []⟩]⟩
        1 "tt1375666" "Inception 2" "9.0" =
      Except.error (VErr.movieNotFoundForUser "tt1375666" 1) := by
  constructor
  · exact c1_update_movie_missing_or_unowned.1 _ 2 1 "Inception 2" "9.0"
      (by intro m hm; injection hm with h2; subst h2; decide)
  · exact (c1_update_movie_missing_or_unowned.2
      ⟨[⟨1, "alice", []⟩], some [⟨1, "alice", []⟩]⟩ 1 "tt1375666"
      "Inception 2" "9.0").2 ⟨1, "alice", []⟩ (by decide) (by decide)

/-- Counterexample to claim C1 as stated: in the flat-file adapter, an
update of a movie that does not exist raises ValueError instead of
returning false, so the claimed behavior does not hold for every
adapter. -/
theorem c1_flatfile_update_raises_counterexample :
    json_update_movie ⟨[⟨1, "alice", []⟩], some [⟨1, "alice", []⟩]⟩
        1 "tt9999999" "New" "9.0" =
      Except.error (VErr.movieNotFoundForUser "tt9999999" 1) := by
  rfl

/-- Claim C4 (amended): add_movie_to_user of the flat-file adapter raises
the user-not-found ValueError when the user is absent from the reloaded
document; add_movie_to_user of the relational adapter instead returns
silently, leaving the store unchanged. -/
theorem c4_add_movie_absent_user :
    (∀ (s : JState) (uid : Nat) (mv : JMovie),
       (json_load_data s).mem.find? (fun u => u.ID == uid) = none →
       json_add_movie_to_user s uid mv =
         Except.error (VErr.userNotFound uid)) ∧
    (∀ (s : SQLState) (uid : Nat) (mv : MovieFields),
       s.users.find? (fun u => u.user_id == uid) = none →
       sql_add_movie_to_user s uid mv = s) := by
  constructor
  · intro s uid mv h
    simp [json_add_movie_to_user, h]
  · intro s uid mv h
    simp [sql_add_movie_to_user, h]

/-- Witness for c4_add_movie_absent_user at concrete stores. -/
theorem c4_add_movie_absent_user_witness :
    json_add_movie_to_user ⟨[], some []⟩ 1
        ⟨"tt0113277", "Heat", "1995", "8.3", "q"⟩ =
      Except.error (VErr.userNotFound 1) ∧
    sql_add_movie_to_user ⟨[⟨1, "alice"⟩], [], [], 2, 1, 1⟩ 5
        ⟨"Heat", "1995", "8.3", "q", "tt0113277"⟩ =
      ⟨[⟨1, "alice"⟩], [], [], 2, 1, 1⟩ := by
  constructor
  · exact c4_add_movie_absent_user.1 ⟨[], some []⟩ 1
      ⟨"tt0113277", "Heat", "1995", "8.3", "q"⟩ (by decide)
  · exact c4_add_movie_absent_user.2 ⟨[⟨1, "alice"⟩], [], [], 2, 1, 1⟩ 5
      ⟨"Heat", "1995", "8.3", "q", "tt0113277"⟩ (by decide)

/-- Counterexample to claim C4 as stated: the relational
add_movie_to_user, called for a user_id with no user row, returns with
the store unchanged and raises nothing — exactly the silent return the
claim rules out. -/
theorem c4_sql_add_movie_silent_counterexample :
    sql_add_movie_to_user ⟨[], [], [], 1, 1, 1⟩ 7
        ⟨"Heat", "1995", "8.3", "q", "tt0113277"⟩ = ⟨[], [], [], 1, 1, 1⟩ := by
  decide

/-- Claim C6 (amended): add_review validates that the referenced user and
movie exist and raises the matching ValueError when they do not;
get_reviews_for_movie instead returns the empty list for an absent movie;
Review.update_review and Review.delete_review look up only the review id,
are silent no-ops when it is absent, and perform no user or movie
validation at all (they mutate even in a store with no users and no
movies). -/
theorem c6_review_ops_validation :
    (∀ (s : SQLState) (uid mid : Nat) (txt : String) (rt : Int),
       s.users.find? (fun u => u.user_id == uid) = none →
       sql_add_review s uid mid txt rt =
         Except.error (VErr.userNotFound uid)) ∧
    (∀ (s : SQLState) (uid mid : Nat) (txt : String) (rt : Int) (u : SQLUser),
       s.users.find? (fun v => v.user_id == uid) = some u →
       s.movies.find? (fun m => m.movie_id == mid) = none →
       sql_add_review s uid mid txt rt =
         Except.error (VErr.movieNotFound mid)) ∧
    (∀ (s : SQLState) (mid : Nat),
       s.movies.find? (fun m => m.movie_id == mid) = none →
       sql_get_reviews_for_movie s mid = []) ∧
    (∀ (s : SQLState) (rid : Nat) (txt : String) (rt : Int),
       s.reviews.find? (fun rv => rv.review_id == rid) = none →
       review_update_review s rid txt rt = s) ∧
    (∀ (s : SQLState) (rid : Nat),
       s.reviews.find? (fun rv => rv.review_id == rid) = none →
       review_delete_review s rid = s) ∧
    review_update_review ⟨[], [], [⟨1, 1, 1, "old", 2⟩], 1, 1, 2⟩ 1 "new" 5 =
      ⟨[], [], [⟨1, 1, 1, "new", 5⟩], 1, 1, 2⟩ ∧
    review_delete_review ⟨[], [], [⟨1, 1, 1, "old", 2⟩], 1, 1, 2⟩ 1 =
      ⟨[], [], [], 1, 1, 2⟩ := by
  refine ⟨?_, ?_, ?_, ?_, ?_, by decide, by decide⟩
  · intro s uid mid txt rt h
    simp [sql_add_review, h]
  · intro s uid mid txt rt u hu hm
    simp [sql_add_review, hu, hm]
  · intro s mid h
    simp [sql_get_reviews_for_movie, h]
  · intro s rid txt rt h
    simp [review_update_review, h]
  · intro s rid h
    simp [review_delete_review, h]

/-- Witness for c6_review_ops_validation at concrete stores. -/
theorem c6_review_ops_validation_witness :
    sql_add_review ⟨[], [], [], 1, 1, 1⟩ 3 4 "nice" 5 =
      Except.error (VErr.userNotFound 3) ∧
    sql_add_review ⟨[⟨3, "carol"⟩], [], [], 4, 1, 1⟩ 3 4 "nice" 5 =
      Except.error (VErr.movieNotFound 4) ∧
    review_update_review ⟨[], [], [], 1, 1, 1⟩ 8 "txt" 1 =
      ⟨[], [], [], 1, 1, 1⟩ := by
  refine ⟨?_, ?_, ?_⟩
  · exact c6_review_ops_validation.1 ⟨[], [], [], 1, 1, 1⟩ 3 4 "nice" 5
      (by decide)
  · exact c6_review_ops_validation.2.1 ⟨[⟨3, "carol"⟩], [], [], 4, 1, 1⟩ 3 4
      "nice" 5 ⟨3, "carol"⟩ (by decide) (by decide)
  · exact c6_review_ops_validation.2.2.2.1 ⟨[], [], [], 1, 1, 1⟩ 8 "txt" 1
      (by decide)

/-- Counterexample to claim C6 as stated: get_reviews_for_movie, asked
for a movie_id with no movie row, returns the empty list instead of
failing with MovieNotFound — even while a review row referencing that
movie_id sits in the review table. -/
theorem c6_get_reviews_missing_movie_counterexample :
    sql_get_reviews_for_movie ⟨[], [], [⟨1, 1, 5, "great", 5⟩], 1, 1, 2⟩ 5 =
      [] := by
  decide

/-- Claim C2: evaluation of the flat-file code at the failing input.  In
a store already holding alice (ID 1), add_user stores bob under the
fresh ID 2, but get_user_name on ID 2 returns none instead of bob: the
return None of get_user_name sits inside the for loop, so only the first
record is ever examined.  The second conjunct shows bob really was
stored under ID 2. -/
theorem c2_flatfile_get_user_name_bug :
    json_get_user_name
      (json_add_user ⟨[⟨1, "alice", []⟩], some [⟨1, "alice", []⟩]⟩
        "bob" []).mem 2 = none ∧
    (json_add_user ⟨[⟨1, "alice", []⟩], some [⟨1, "alice", []⟩]⟩
        "bob" []).mem = [⟨1, "alice", []⟩, ⟨2, "bob", []⟩] := by
  constructor <;> decide

/-- Claim C5 (amended): of the flat-file mutating operations only
add_movie_to_user reloads the document from disk before mutating (its
result is invariant under a prior load), every mutating operation that
completes serializes the whole document back to disk, and add_user,
delete_user, update_movie and delete_movie demonstrably act on the stale
in-memory data instead of the on-disk document. -/
theorem c5_flatfile_reload_and_save :
    (∀ (s : JState) (uid : Nat) (mv : JMovie),
       json_add_movie_to_user s uid mv =
         json_add_movie_to_user (json_load_data s) uid mv) ∧
    (∀ (s : JState) (n : String) (mvs : List JMovie),
       (json_add_user s n mvs).disk = some (json_add_user s n mvs).mem) ∧
    (∀ (s : JState) (uid : Nat),
       (json_delete_user s uid).disk = some (json_delete_user s uid).mem) ∧
    (∀ (s : JState) (uid : Nat) (mv : JMovie) (s1 : JState),
       json_add_movie_to_user s uid mv = Except.ok s1 →
       s1.disk = some s1.mem) ∧
    (∀ (s : JState) (uid : Nat) (mid t r : String) (s1 : JState),
       json_update_movie s uid mid t r = Except.ok s1 →
       s1.disk = some s1.mem) ∧
    (∀ (s : JState) (uid : Nat) (mid : String) (s1 : JState),
       json_delete_movie s uid mid = Except.ok s1 →
       s1.disk = some s1.mem) ∧
    json_delete_user ⟨[], some [⟨1, "alice", []⟩]⟩ 2 ≠
      json_delete_user (json_load_data ⟨[], some [⟨1, "alice", []⟩]⟩) 2 ∧
    json_update_movie ⟨[], some [⟨1, "alice",
        [⟨"tt1", "T", "2000", "8", "p"⟩]⟩]⟩ 1 "tt1" "X" "9" =
      Except.error (VErr.userNotFound 1) ∧
    json_update_movie
        (json_load_data ⟨[], some [⟨1, "alice",
          [⟨"tt1", "T", "2000", "8", "p"⟩]⟩]⟩) 1 "tt1" "X" "9" =
      Except.ok ⟨[⟨1, "alice", [⟨"tt1", "X", "2000", "9", "p"⟩]⟩],
        some [⟨1, "alice", [⟨"tt1", "X", "2000", "9", "p"⟩]⟩]⟩ ∧
    json_delete_movie ⟨[], some [⟨1, "alice",
        [⟨"tt1", "T", "2000", "8", "p"⟩]⟩]⟩ 1 "tt1" =
      Except.error (VErr.userNotFound 1) ∧
    json_delete_movie
        (json_load_data ⟨[], some [⟨1, "alice",
          [⟨"tt1", "T", "2000", "8", "p"⟩]⟩]⟩) 1 "tt1" =
      Except.ok ⟨[⟨1, "alice", []⟩], some [⟨1, "alice", []⟩]⟩ := by
  refine ⟨?_, ?_, ?_, ?_, ?_, ?_, by decide, by rfl, by rfl, by rfl, by rfl⟩
  · intro s uid mv
    rfl
  · intro s n mvs
    rfl
  · intro s uid
    rfl
  · intro s uid mv s1 h
    cases hf : (json_load_data s).mem.find? (fun u => u.ID == uid) with
    | none => simp [json_add_movie_to_user, hf] at h
    | some u =>
      simp only [json_add_movie_to_user, hf, Except.ok.injEq] at h
      subst h
      rfl
  · intro s uid mid t r s1 h
    cases hf : s.mem.find? (fun u => u.ID == uid) with
    | none => simp [json_update_movie, hf] at h
    | some u =>
      cases hmv : u.movies.find? (fun m => m.imdb_ID == mid) with
      | none => simp [json_update_movie, hf, hmv] at h
      | some m =>
        simp only [json_update_movie, hf, hmv, Except.ok.injEq] at h
        subst h
        rfl
  · intro s uid mid s1 h
    cases hf : s.mem.find? (fun u => u.ID == uid) with
    | none => simp [json_delete_movie, hf] at h
    | some u =>
      simp only [json_delete_movie, hf, Except.ok.injEq] at h
      subst h
      rfl

/-- Witness for c5_flatfile_reload_and_save at concrete states. -/
theorem c5_flatfile_reload_and_save_witness :
    json_add_movie_to_user ⟨[⟨9, "stale", []⟩], some [⟨1, "alice", []⟩]⟩ 1
        ⟨"tt1", "T", "2000", "8", "p"⟩ =
      json_add_movie_to_user
        (json_load_data ⟨[⟨9, "stale", []⟩], some [⟨1, "alice", []⟩]⟩) 1
        ⟨"tt1", "T", "2000", "8", "p"⟩ ∧
    (⟨[⟨1, "alice", [⟨"tt1", "T", "2000", "8", "p"⟩]⟩],
      some [⟨1, "alice", [⟨"tt1", "T", "2000", "8", "p"⟩]⟩]⟩ : JState).disk =
      some (⟨[⟨1, "alice", [⟨"tt1", "T", "2000", "8", "p"⟩]⟩],
        some [⟨1, "alice", [⟨"tt1", "T", "2000", "8", "p"⟩]⟩]⟩ : JState).mem := by
  constructor
  · exact c5_flatfile_reload_and_save.1
      ⟨[⟨9, "stale", []⟩], some [⟨1, "alice", []⟩]⟩ 1
      ⟨"tt1", "T", "2000", "8", "p"⟩
  · exact c5_flatfile_reload_and_save.2.2.2.1
      ⟨[⟨1, "alice", []⟩], some [⟨1, "alice", []⟩]⟩ 1
      ⟨"tt1", "T", "2000", "8", "p"⟩ _ (by rfl)

/-- Counterexample to claim C5 as stated: add_user does not reload from
disk first.  With a stale in-memory record and an empty on-disk
document, add_user keeps the stale record (and writes it back), whereas
a reload-first operation would be unaffected by the in-memory state. -/
theorem c5_add_user_no_reload_counterexample :
    json_add_user ⟨[⟨1, "alice", []⟩], some []⟩ "bob" [] ≠
      json_add_user (json_load_data ⟨[⟨1, "alice", []⟩], some []⟩)
        "bob" [] := by
  decide

/-- Claim C7: a successful relational update_movie (returning True)
changes only the title and rating of the single targeted movie row: the
user table, review table and id counters are untouched, the store splits
around one movie row whose movie_id is the target and whose user_id is
the caller, and the result replaces exactly that row with only title and
rating rewritten; an unsuccessful call (returning False) leaves the
entire store unchanged. -/
theorem c7_update_movie_frame (s : SQLState) (uid mid : Nat) (t r : String) :
    ((sql_update_movie s uid mid t r).1 = false →
      (sql_update_movie s uid mid t r).2 = s) ∧
    ((sql_update_movie s uid mid t r).1 = true →
      (sql_update_movie s uid mid t r).2.users = s.users ∧
      (sql_update_movie s uid mid t r).2.reviews = s.reviews ∧
      (sql_update_movie s uid mid t r).2.next_user_id = s.next_user_id ∧
      (sql_update_movie s uid mid t r).2.next_movie_id = s.next_movie_id ∧
      (sql_update_movie s uid mid t r).2.next_review_id = s.next_review_id ∧
      ∃ l1 m l2, s.movies = l1 ++ m :: l2 ∧
        (∀ x ∈ l1, x.movie_id ≠ mid) ∧
        m.movie_id = mid ∧ m.user_id = uid ∧
        (sql_update_movie s uid mid t r).2.movies =
          l1 ++ { m with title := t, rating := r } :: l2) := by
  cases hf : s.movies.find? (fun m => m.movie_id == mid) with
  | none =>
    constructor
    · intro _
      simp [sql_update_movie, hf]
    · intro htrue
      simp [sql_update_movie, hf] at htrue
  | some m =>
    cases hb : m.user_id == uid with
    | false =>
      constructor
      · intro _
        simp [sql_update_movie, hf, hb]
      · intro htrue
        simp [sql_update_movie, hf, hb] at htrue
    | true =>
      have hmid := List.find?_some hf
      obtain ⟨l1, l2, hdec, hl1⟩ := find?_decomp hf
      constructor
      · intro hfalse
        simp [sql_update_movie, hf, hb] at hfalse
      · intro _
        refine ⟨by simp [sql_update_movie, hf, hb],
          by simp [sql_update_movie, hf, hb],
          by simp [sql_update_movie, hf, hb],
          by simp [sql_update_movie, hf, hb],
          by simp [sql_update_movie, hf, hb],
          l1, m, l2, hdec, ?_, beq_iff_eq.mp hmid, beq_iff_eq.mp hb, ?_⟩
        · intro x hx he
          have h2 := hl1 x hx
          rw [he] at h2
          simp at h2
        · simp only [sql_update_movie, hf, hb, if_true]
          rw [hdec]
          exact updateFirstSMovie_append mid _ l1 m l2 hl1 hmid

/-- Witness for c7_update_movie_frame: a successful owner update on a
concrete two-user store leaves users and reviews untouched. -/
theorem c7_update_movie_frame_witness :
    (sql_update_movie
      ⟨[⟨1, "alice"⟩, ⟨2, "bob"⟩],
       [⟨1, "Inception", "2010", "8.8", 1, "tt1375666", "p"⟩],
       [⟨1, 2, 1, "wow", 5⟩], 3, 2, 2⟩ 1 1 "Inception 2" "9.0").2.users =
      [⟨1, "alice"⟩, ⟨2, "bob"⟩] ∧
    (sql_update_movie
      ⟨[⟨1, "alice"⟩, ⟨2, "bob"⟩],
       [⟨1, "Inception", "2010", "8.8", 1, "tt1375666", "p"⟩],
       [⟨1, 2, 1, "wow", 5⟩], 3, 2, 2⟩ 1 1 "Inception 2" "9.0").2.reviews =
      [⟨1, 2, 1, "wow", 5⟩] := by
  constructor
  · exact ((c7_update_movie_frame
      ⟨[⟨1, "alice"⟩, ⟨2, "bob"⟩],
       [⟨1, "Inception", "2010", "8.8", 1, "tt1375666", "p"⟩],
       [⟨1, 2, 1, "wow", 5⟩], 3, 2, 2⟩ 1 1 "Inception 2" "9.0").2
      (by decide)).1
  · exact ((c7_update_movie_frame
      ⟨[⟨1, "alice"⟩, ⟨2, "bob"⟩],
       [⟨1, "Inception", "2010", "8.8", 1, "tt1375666", "p"⟩],
       [⟨1, 2, 1, "wow", 5⟩], 3, 2, 2⟩ 1 1 "Inception 2" "9.0").2
      (by decide)).2.1

/-- Claim C9 (amended): data_api of both adapters reports a body whose
Response field is the string False by raising a dedicated ValueError —
an outcome distinct from returning a record and distinct from the
uncaught requests exception that transport failures propagate as; the
fetch_movie_details helper of api.py instead returns the no-match
payload unchanged as an ordinary record and collapses transport failures
to the empty record. -/
theorem c9_lookup_no_match_outcomes :
    (∀ (title : String) (st : Nat) (body : OmdbJson),
       body.responseVal = some "False" →
       sql_data_api title (HttpResult.success st body) =
         ApiOutcome.valueError title ∧
       json_data_api title (HttpResult.success st body) =
         ApiOutcome.valueError title) ∧
    (∀ (title msg : String),
       sql_data_api title (HttpResult.failure msg) =
         ApiOutcome.requestError msg ∧
       json_data_api title (HttpResult.failure msg) =
         ApiOutcome.requestError msg) ∧
    (∀ (t m : String), ApiOutcome.valueError t ≠ ApiOutcome.requestError m) ∧
    (∀ (t : String) (b : OmdbJson),
       ApiOutcome.valueError t ≠ ApiOutcome.record b) ∧
    (∀ (body : OmdbJson), body.responseVal = some "False" →
       fetch_movie_details (HttpResult.success 200 body) = body) ∧
    (∀ (msg : String),
       fetch_movie_details (HttpResult.failure msg) = emptyJson) := by
  refine ⟨?_, ?_, ?_, ?_, ?_, ?_⟩
  · intro title st body h
    constructor
    · simp [sql_data_api, h]
    · simp [json_data_api, h]
  · intro title msg
    exact ⟨rfl, rfl⟩
  · intro t m h
    exact ApiOutcome.noConfusion h
  · intro t b h
    exact ApiOutcome.noConfusion h
  · intro body h
    rfl
  · intro msg
    rfl

/-- Witness for c9_lookup_no_match_outcomes at a concrete no-match
body. -/
theorem c9_lookup_no_match_outcomes_witness :
    sql_data_api "Nonexistent Movie" (HttpResult.success 200
        ⟨[("Response", "False"), ("Error", "Movie not found!")]⟩) =
      ApiOutcome.valueError "Nonexistent Movie" ∧
    json_data_api "Nonexistent Movie" (HttpResult.success 200
        ⟨[("Response", "False"), ("Error", "Movie not found!")]⟩) =
      ApiOutcome.valueError "Nonexistent Movie" := by
  exact c9_lookup_no_match_outcomes.1 "Nonexistent Movie" 200
    ⟨[("Response", "False"), ("Error", "Movie not found!")]⟩ (by decide)

/-- Counterexample to claim C9 as stated: fetch_movie_details, one of
the metadata-lookup entry points, hands a Response False payload back
unchanged as an ordinary record — its return type has no distinct
not-found outcome at all — and returns the empty record for transport
failures. -/
theorem c9_fetch_details_counterexample :
    fetch_movie_details (HttpResult.success 200
        ⟨[("Response", "False"), ("Error", "Movie not found!")]⟩) =
      ⟨[("Response", "False"), ("Error", "Movie not found!")]⟩ ∧
    fetch_movie_details (HttpResult.failure "connection timed out") =
      emptyJson := by
  exact ⟨rfl, rfl⟩
